import Mathlib

/-!
Shallow embedding of the consensus / deduplication / durable-delivery core of
the whatsappbot repository, together with theorems settling the frozen claims.

Conventions of the embedding:
* Python floats are modelled as rationals (ℚ); `round(x, 3)` is modelled by
  `round3` below (round-half-up at the third decimal; Python's float rounding
  agrees away from exact .0005 ties, and every input used in a concrete
  theorem below is away from a tie).
* Python dicts with a fixed field layout become structures; `dict.get(k, d)`
  on an optional field becomes an `Option` field (or a plain field when the
  producing code always sets it).
* `async` functions are pure functions of their inputs plus an explicit
  store / clock argument; exceptions become `Except` / `Option` results.
* Wall-clock timestamps are integers (epoch seconds).  The source stores ISO
  strings whose lexicographic order coincides with chronological order for a
  fixed format, so sorting by the integer is faithful.
-/

/-! ## Section 1: ConsensusResolver
Embedding of `src/services/classifier-service/testing/voting_system.py`. -/

/-- Input opinion of one classifier, as consumed by `VotingSystem.consensus`
(`claude_result` / `openai_result` dicts).  `es_incidencia = none` denotes a
provider error.  The untyped `metadata` payload is kept as an association
list of strings; the `_metadata` timing/cost block is omitted (it is copied
verbatim into the comparison report and read nowhere else). -/
structure ClassOpinion where
  es_incidencia : Option Bool
  confianza : ℚ
  categoria : Option String
  prioridad : Option String
  metadata : List (String × String)
deriving Repr, DecidableEq

/-- The `consenso` sub-dict of a consensus result. -/
structure ConsensoMeta where
  tipo : String
  modelos_acuerdo : List String
  modelo_primario : Option String
  requiere_revision : Bool
  razon_discrepancia : Option String
  modelo_con_error : Option String
deriving Repr, DecidableEq

/-- Result dict of `VotingSystem.consensus`.  The `comparacion` audit block
(a pure function of the two inputs, read by no other code) is omitted. -/
structure ConsensusOut where
  es_incidencia : Option Bool
  confianza : ℚ
  categoria : Option String
  prioridad : Option String
  metadata : List (String × String)
  consenso : ConsensoMeta
deriving Repr, DecidableEq

/-- Python's `round(x, 3)`: round to 3 decimal places. -/
def round3 (x : ℚ) : ℚ := ((round (x * 1000) : ℤ) : ℚ) / 1000

/-- Python's `str(b)` on a bool, used in the discrepancy reason string. -/
def pyBoolStr (b : Bool) : String := if b then "True" else "False"

/-- `VotingSystem._caso_ambos_si`: both models agree it is an incident. -/
def caso_ambos_si (claude openai : ClassOpinion) : ConsensusOut :=
  let claude_conf := claude.confianza
  let openai_conf := openai.confianza
  let confianza_promedio := (claude_conf + openai_conf) / 2
  let confianza_final := min (confianza_promedio * (11/10)) 1
  let src := if claude_conf ≥ openai_conf then claude else openai
  { es_incidencia := some true
    confianza := round3 confianza_final
    categoria := src.categoria
    prioridad := src.prioridad
    metadata := src.metadata
    consenso :=
      { tipo := "ambos_si"
        modelos_acuerdo := ["claude", "openai"]
        modelo_primario := some (if claude_conf ≥ openai_conf then "claude" else "openai")
        requiere_revision := false
        razon_discrepancia := none
        modelo_con_error := none } }

/-- `VotingSystem._caso_ambos_no`: both models agree it is not an incident. -/
def caso_ambos_no (claude openai : ClassOpinion) : ConsensusOut :=
  let confianza_final := max claude.confianza openai.confianza
  { es_incidencia := some false
    confianza := round3 confianza_final
    categoria := none
    prioridad := none
    metadata := []
    consenso :=
      { tipo := "ambos_no"
        modelos_acuerdo := ["claude", "openai"]
        modelo_primario := some "consensus"
        requiere_revision := false
        razon_discrepancia := none
        modelo_con_error := none } }

/-- `VotingSystem._caso_discrepancia`: one model says yes, the other no. -/
def caso_discrepancia (claude openai : ClassOpinion) : ConsensusOut :=
  let claude_conf := claude.confianza
  let openai_conf := openai.confianza
  let claude_es_inc := claude.es_incidencia
  let resultado_primario := if claude_conf > openai_conf then claude else openai
  let modelo_primario := if claude_conf > openai_conf then "claude" else "openai"
  let confianza_final := resultado_primario.confianza * (85/100)
  { es_incidencia := resultado_primario.es_incidencia
    confianza := round3 confianza_final
    categoria := resultado_primario.categoria
    prioridad := resultado_primario.prioridad
    metadata := resultado_primario.metadata
    consenso :=
      { tipo := "discrepancia"
        modelos_acuerdo := [modelo_primario]
        modelo_primario := some modelo_primario
        requiere_revision := true
        razon_discrepancia := some
          ("Claude dice " ++ pyBoolStr (claude_es_inc.getD false)
            ++ ", OpenAI dice " ++ pyBoolStr (!(claude_es_inc.getD false)))
        modelo_con_error := none } }

/-- `VotingSystem._caso_error`: at least one model returned `None`. -/
def caso_error (claude openai : ClassOpinion) : ConsensusOut :=
  if claude.es_incidencia ≠ none ∨ openai.es_incidencia ≠ none then
    let resultado_valido := if claude.es_incidencia ≠ none then claude else openai
    let modelo_valido := if claude.es_incidencia ≠ none then "claude" else "openai"
    let confianza_final := resultado_valido.confianza * (75/100)
    { es_incidencia := resultado_valido.es_incidencia
      confianza := round3 confianza_final
      categoria := resultado_valido.categoria
      prioridad := resultado_valido.prioridad
      metadata := resultado_valido.metadata
      consenso :=
        { tipo := "error_parcial"
          modelos_acuerdo := [modelo_valido]
          modelo_primario := some modelo_valido
          requiere_revision := true
          razon_discrepancia := none
          modelo_con_error := some (if modelo_valido = "claude" then "openai" else "claude") } }
  else
    { es_incidencia := none
      confianza := 0
      categoria := none
      prioridad := none
      metadata := []
      consenso :=
        { tipo := "error_ambos"
          modelos_acuerdo := []
          modelo_primario := none
          requiere_revision := true
          razon_discrepancia := none
          modelo_con_error := none } }

/-- `VotingSystem.consensus`: dispatch over the four cases, in source order. -/
def consensus (claude_result openai_result : ClassOpinion) : ConsensusOut :=
  let claude_es_inc := claude_result.es_incidencia
  let openai_es_inc := openai_result.es_incidencia
  if claude_es_inc = some true ∧ openai_es_inc = some true then
    caso_ambos_si claude_result openai_result
  else if claude_es_inc = some false ∧ openai_es_inc = some false then
    caso_ambos_no claude_result openai_result
  else if claude_es_inc ≠ none ∧ openai_es_inc ≠ none ∧ claude_es_inc ≠ openai_es_inc then
    caso_discrepancia claude_result openai_result
  else
    caso_error claude_result openai_result

/-! ## Section 2: ClassificationGateway, provider chain
Embedding of `AIModelManager.classify_message` and
`AIModelManager._default_classification`
(`src/services/classifier-service/app/ai/model_manager.py`). -/

/-- The `extracted_info` sub-dict of a classification. -/
structure ExtractedInfo where
  user_type : String
  product_mentioned : Option String
  error_code : Option String
  contact_info : Option String
deriving Repr, DecidableEq

/-- Shape of the dict a provider (or the default path) returns from
`classify_message`. -/
structure AIClassification where
  is_support_incident : Bool
  confidence : ℚ
  category : String
  urgency : String
  summary : String
  requires_followup : Bool
  suggested_response : String
  extracted_info : ExtractedInfo
deriving Repr, DecidableEq

/-- `AIModelManager._default_classification`: the conservative default
returned when all models fail. -/
def default_classification : AIClassification :=
  { is_support_incident := true
    confidence := 1/10
    category := "general_inquiry"
    urgency := "medium"
    summary := "Mensaje requiere revisión manual"
    requires_followup := true
    suggested_response := "Hola, hemos recibido tu mensaje y será revisado por nuestro equipo de soporte. Te responderemos a la brevedad."
    extracted_info :=
      { user_type := "unknown"
        product_mentioned := none
        error_code := none
        contact_info := none } }

/-- `AIModelManager.classify_message`, abstracted over the outcome of each
provider call: `none` models a raised exception, an unavailable client, or a
falsy result (all of which make the source fall through to the next step),
`some r` a truthy parsed result that is returned.  The primary outcome is
consulted first, then the fallback, then the conservative default. -/
def classify_message (primary fallback : Option AIClassification) : AIClassification :=
  match primary with
  | some result => result
  | none =>
    match fallback with
    | some result => result
    | none => default_classification

/-! ## Section 3: keyword fallback classifier
Embedding of `MessageClassifier._fallback_classification` and
`MessageClassifier._extract_trigger_words`
(`src/services/classifier-service/app/agents/classifier.py`). -/

/-- Python's `needle in haystack` substring test, on character lists. -/
def containsSub (needle : List Char) : List Char → Bool
  | [] => needle.isEmpty
  | c :: rest => needle.isPrefixOf (c :: rest) || containsSub needle rest

/-- Substring test on strings (`kw in text`). -/
def strContains (haystack kw : String) : Bool :=
  containsSub kw.toList haystack.toList

/-- Python's `str.lower`, restricted to ASCII case folding (the keyword sets
below are already lower-case, so the difference to full Unicode folding is
irrelevant to every matching decision taken on them). -/
def pyLower (s : String) : String := String.mk (s.toList.map Char.toLower)

/-- `self.fallback_keywords["urgent"]`. -/
def urgentKeywords : List String :=
  ["urgente", "no funciona", "cerrado", "sistema caído", "no pueden vender", "error", "crítico"]

/-- `self.fallback_keywords["technical"]`. -/
def technicalKeywords : List String :=
  ["pos", "sistema", "software", "aplicación", "red", "internet", "servidor", "base de datos"]

/-- `self.fallback_keywords["operational"]`. -/
def operationalKeywords : List String :=
  ["tienda", "inventario", "producto", "cliente", "venta", "caja", "personal"]

/-- `self.fallback_keywords["billing"]`. -/
def billingKeywords : List String :=
  ["factura", "cobro", "pago", "precio", "descuento", "promoción"]

/-- `self.fallback_keywords["general"]`. -/
def generalKeywords : List String :=
  ["pregunta", "consulta", "información", "horario", "ubicación"]

/-- `self.fallback_keywords`, in dict insertion order. -/
def fallback_keywords : List (String × List String) :=
  [("urgent", urgentKeywords), ("technical", technicalKeywords),
   ("operational", operationalKeywords), ("billing", billingKeywords),
   ("general", generalKeywords)]

/-- The inline `incident_indicators` list of `_fallback_classification`:
the urgent set plus six extra problem words. -/
def incident_indicators : List String :=
  urgentKeywords ++ ["problema", "ayuda", "falla", "no puede", "error", "roto"]

/-- `MessageClassifier._extract_trigger_words`: every keyword of every
category set that occurs in the lowered text.  The source deduplicates via
`list(set(...))` with unspecified order; the five sets are pairwise disjoint,
so the scan order kept here lists exactly the same words. -/
def extract_trigger_words (text : String) : List String :=
  let text_lower := pyLower text
  ((fallback_keywords.map Prod.snd).flatten.filter
    (fun keyword => strContains text_lower keyword)).eraseDups

/-- Result schema of the classifier agent (`ClassificationResponse`); the
`extracted_info` payload of the fallback path is represented by its two
fields, `processing_time` (always 0.0 here) is omitted. -/
structure ClassifierResponse where
  is_support_incident : Bool
  confidence : ℚ
  category : String
  urgency : String
  summary : String
  requires_followup : Bool
  suggested_response : String
  classification_method : String
  trigger_words_count : Nat
  trigger_words : List String
deriving Repr, DecidableEq

/-- `MessageClassifier._fallback_classification`: the deterministic
keyword-based classification. -/
def fallback_classification (text : String) : ClassifierResponse :=
  let text_lower := pyLower text
  let trigger_words := extract_trigger_words text
  let is_incident := incident_indicators.any (fun keyword => strContains text_lower keyword)
  let category_urgency :=
    if urgentKeywords.any (fun keyword => strContains text_lower keyword) then
      ("technical", "critical")
    else if technicalKeywords.any (fun keyword => strContains text_lower keyword) then
      ("technical", "medium")
    else if billingKeywords.any (fun keyword => strContains text_lower keyword) then
      ("billing", "medium")
    else if operationalKeywords.any (fun keyword => strContains text_lower keyword) then
      ("general_inquiry", "low")
    else if is_incident then
      ("technical", "medium")
    else
      ("not_support", "low")
  let confidence : ℚ := if is_incident then min (4/5) (trigger_words.length * (1/5)) else 3/10
  let suggested_response :=
    if is_incident then
      "Hemos recibido tu reporte y será atendido por nuestro equipo técnico. Te mantendremos informado del progreso."
    else
      "Gracias por tu mensaje. ¿En qué podemos ayudarte?"
  { is_support_incident := is_incident
    confidence := confidence
    category := category_urgency.1
    urgency := category_urgency.2
    summary :=
      if trigger_words.isEmpty then "Mensaje general"
      else "Mensaje clasificado por palabras clave: " ++ String.intercalate ", " (trigger_words.take 3)
    requires_followup := confidence < 3/5
    suggested_response := suggested_response
    classification_method := "keyword_fallback"
    trigger_words_count := trigger_words.length
    trigger_words := trigger_words }

/-! ## Section 4: IncidentTracker
Embedding of `ConversationTracker`
(`src/services/classifier-service/app/utils/conversation_tracker.py`).
The Redis store is modelled as the list of active-incident records; the key
of a record is `"incident:active:" ++ group_id ++ ":" ++ ticket_id`, so a
scan for `incident:active:{g}:*` is a filter on `group_id = g` and a scan
for `incident:active:*:{t}` is a filter on `ticket_id = t`. -/

/-- Quoted-message payload carried by a reply (`quoted_message` dict). -/
structure QuotedMsg where
  text : String
  participant : String
deriving Repr, DecidableEq

/-- Inbound message dict as read by the tracker; only the fields it
accesses.  `none` or an empty string are both falsy in the source's
`a or b` / `if not group_id` tests. -/
structure MsgData where
  id : String
  text : String
  from_user : Option String
  group_id : Option String
  quoted_message : Option QuotedMsg
deriving Repr, DecidableEq

/-- One active-incident record in the store (value under
`incident:active:{group_id}:{ticket_id}`); `timestamp` is the registration
time in epoch seconds. -/
structure IncidentRec where
  ticket_id : String
  group_id : String
  timestamp : ℤ
deriving Repr, DecidableEq

/-- The store of active incidents, in key-scan order. -/
def IncidentStore := List IncidentRec

/-- The bot's own phone number (`ConversationTracker.bot_number`, default). -/
def bot_number : String := "5215530482752"

/-- `ConversationTracker.INCIDENT_TTL` (seconds). -/
def INCIDENT_TTL : ℤ := 7200

/-- Python truthiness of an optional string (`None` and `""` are falsy). -/
def truthyStr : Option String → Bool
  | none => false
  | some s => !s.isEmpty

/-- Python's `a or b` on two optional strings, as used for
`message_data.get('group_id') or message_data.get('from_user')`. -/
def pyOrStr (a b : Option String) : Option String :=
  if truthyStr a then a else b

/-- `re.search` for one pattern `<lit>(\d+)`: find the first position where
the literal occurs immediately followed by at least one digit, and return
the maximal digit run there. -/
def searchLitDigits (lit : List Char) : List Char → Option String
  | [] => none
  | c :: rest =>
    let here := c :: rest
    if lit.isPrefixOf here then
      let ds := (here.drop lit.length).takeWhile Char.isDigit
      if ds.isEmpty then searchLitDigits lit rest else some (String.mk ds)
    else
      searchLitDigits lit rest

/-- The ordered pattern list of `_extract_ticket_from_quoted`:
`Ticket #(\d+)`, `Ticket (\d+)`, `ticket #(\d+)`, `ticket (\d+)`, `#(\d+)`. -/
def ticketPatterns : List (List Char) :=
  ["Ticket #".toList, "Ticket ".toList, "ticket #".toList, "ticket ".toList, "#".toList]

/-- `ConversationTracker.is_ticket_active`: a scan for
`incident:active:*:{ticket_id}` finds at least one key. -/
def is_ticket_active (store : IncidentStore) (ticket_id : String) : Bool :=
  (store.filter (fun e => e.ticket_id == ticket_id)).length > 0

/-- The pattern loop of `_extract_ticket_from_quoted`: for each pattern in
order, if it matches, return the captured id when that ticket is active in
the store, otherwise move on to the next pattern. -/
def firstActiveTicket (store : IncidentStore) (quoted_text : String) :
    List (List Char) → Option String
  | [] => none
  | pat :: rest =>
    match searchLitDigits pat quoted_text.toList with
    | some ticket_id =>
      if is_ticket_active store ticket_id then some ticket_id
      else firstActiveTicket store quoted_text rest
    | none => firstActiveTicket store quoted_text rest

/-- `ConversationTracker._extract_ticket_from_quoted`: only messages whose
quoted participant contains the bot number are considered; then the ordered
ticket patterns are tried against the quoted text. -/
def extract_ticket_from_quoted (store : IncidentStore) (message_data : MsgData) :
    Option String :=
  match message_data.quoted_message with
  | none => none
  | some quoted =>
    if !(strContains quoted.participant bot_number) then none
    else firstActiveTicket store quoted.text ticketPatterns

/-- Insert a record into a list already sorted most-recent-first, before the
first element that is not strictly more recent.  Together with `sortDesc`
this is a stable sort by `timestamp` in decreasing order, the behaviour of
`incidents.sort(key=lambda x: x.get('timestamp',''), reverse=True)`
(Python's sort is stable and `reverse=True` keeps ties in scan order). -/
def insertDesc (a : IncidentRec) : List IncidentRec → List IncidentRec
  | [] => [a]
  | x :: xs => if x.timestamp ≤ a.timestamp then a :: x :: xs else x :: insertDesc a xs

/-- Stable sort of incident records, most recent first. -/
def sortDesc (l : List IncidentRec) : List IncidentRec := l.foldr insertDesc []

/-- `ConversationTracker._find_recent_incident`: filter the store by the
message's context key, take the most recent record, and return its ticket id
when it is strictly younger than the TTL window. -/
def find_recent_incident (store : IncidentStore) (message_data : MsgData)
    (now : ℤ) : Option String :=
  match pyOrStr message_data.group_id message_data.from_user with
  | none => none
  | some group_id =>
    if group_id.isEmpty then none
    else
      let incidents := store.filter (fun e => e.group_id == group_id)
      match (sortDesc incidents).head? with
      | none => none
      | some recent =>
        if now - recent.timestamp < INCIDENT_TTL then some recent.ticket_id
        else none

/-- `ConversationTracker.check_existing_incident`: quoted-reply extraction
first; when it yields nothing the time-windowed context search runs
unconditionally. -/
def check_existing_incident (store : IncidentStore) (message_data : MsgData)
    (now : ℤ) : Option String :=
  match message_data.quoted_message with
  | some _ =>
    match extract_ticket_from_quoted store message_data with
    | some ticket_id => some ticket_id
    | none => find_recent_incident store message_data now
  | none => find_recent_incident store message_data now

/-! ## Section 5: DeliveryQueue and ticket endpoint
Embedding of `TicketQueue`
(`src/services/ticket-service/app/services/ticket_queue.py`) and of the
`POST /tickets` handler (`src/services/ticket-service/app/main.py`).
The Redis list `pending_tickets` is a Lean list whose head is the `lpush`
end and whose last element is the `rpop` end; the per-id status records
(`ticket_status:{id}`) are a shadowing association list.  Wall-clock fields
(`created_at`, `last_updated`, `last_attempt`) are omitted.  The Zoho
backend is an oracle mapping the index of the call to its outcome
(`Except error ticket_id`). -/

/-- One serialized item of the `pending_tickets` list.  The `status` field
inside the payload is written once as `queued` and never updated. -/
structure QueueItem where
  id : String
  ticket_data : String
  attempts : Nat
  max_attempts : Nat
  status : String
  error : Option String
deriving Repr, DecidableEq

/-- Value stored under `ticket_status:{queue_id}`. -/
structure StatusRec where
  status : String
  attempts : Option Nat
  ticket_id : Option String
  error : Option String
deriving Repr, DecidableEq

/-- A published `tickets:created` event: channel, backend ticket id,
queue id (empty for the synchronous endpoint path, which publishes the
ticket number instead). -/
structure CreatedEvent where
  channel : String
  ticket_id : String
  queue_id : String
deriving Repr, DecidableEq

/-- The Redis state seen by the ticket service. -/
structure QueueState where
  queue : List QueueItem
  statuses : List (String × StatusRec)
  events : List CreatedEvent
deriving Repr, DecidableEq

/-- `set_cache` on a status key: later writes shadow earlier ones. -/
def setStatus (statuses : List (String × StatusRec)) (queue_id : String)
    (rec : StatusRec) : List (String × StatusRec) :=
  (queue_id, rec) :: statuses

/-- `get_cache` on a status key. -/
def getStatus (statuses : List (String × StatusRec)) (queue_id : String) :
    Option StatusRec :=
  (statuses.find? (fun kv => kv.1 == queue_id)).map Prod.snd

/-- `TicketQueue.add_ticket`: build the queue item with `attempts = 0` and
`max_attempts = 10`, `lpush` it, and record a `queued` status.  The random
uuid suffix is an explicit argument. -/
def add_ticket (ticket_data : String) (uuidHex8 : String) (st : QueueState) :
    String × QueueState :=
  let queue_id := "queue_" ++ uuidHex8
  let queue_item : QueueItem :=
    { id := queue_id
      ticket_data := ticket_data
      attempts := 0
      max_attempts := 10
      status := "queued"
      error := none }
  (queue_id,
    { queue := queue_item :: st.queue
      statuses := setStatus st.statuses queue_id
        { status := "queued", attempts := none, ticket_id := none, error := none }
      events := st.events })

/-- `TicketQueue.get_ticket_status`: status lookup with a `not_found`
default. -/
def get_ticket_status (st : QueueState) (queue_id : String) : StatusRec :=
  match getStatus st.statuses queue_id with
  | some rec => rec
  | none => { status := "not_found", attempts := none, ticket_id := none, error := none }

/-- The success branch of one `process_queue` iteration: mark the item
`completed` with the backend ticket id and publish a `tickets:created`
event. -/
def okStep (item : QueueItem) (ticket_id : String) (rest : List QueueItem)
    (st : QueueState) : QueueState :=
  { queue := rest
    statuses := setStatus st.statuses item.id
      { status := "completed", attempts := none, ticket_id := some ticket_id, error := none }
    events := st.events ++
      [{ channel := "tickets:created", ticket_id := ticket_id, queue_id := item.id }] }

/-- The failure branch of one `process_queue` iteration: increment
`attempts`, record the error; below `max_attempts` `lpush` the item back and
set a `retrying` status, otherwise set a `failed` status and drop the
item. -/
def failStep (item : QueueItem) (error : String) (rest : List QueueItem)
    (st : QueueState) : QueueState :=
  let item2 : QueueItem :=
    { item with attempts := item.attempts + 1, error := some error }
  if item2.attempts < item2.max_attempts then
    { queue := item2 :: rest
      statuses := setStatus st.statuses item.id
        { status := "retrying", attempts := some item2.attempts,
          ticket_id := none, error := some error }
      events := st.events }
  else
    { queue := rest
      statuses := setStatus st.statuses item.id
        { status := "failed", attempts := some item2.attempts,
          ticket_id := none, error := some error }
      events := st.events }

/-- Fuel bound for the `process_queue` loop: a queued item can be attempted
at most `max_attempts - attempts` times before it is completed, requeued
with one more attempt, or dropped. -/
def itemFuel (item : QueueItem) : Nat := item.max_attempts - item.attempts + 1

/-- Total fuel of a queue. -/
def queueFuel (queue : List QueueItem) : Nat := (queue.map itemFuel).sum

/-- The `while True` loop of `TicketQueue.process_queue`: `rpop` the next
item, attempt backend creation (`backend k` is the outcome of the k-th
call), apply the success or failure step, and continue until `rpop` finds
the list empty.  Returns the processed count, the final state, and the log
of item ids in attempt order.  `fuel` only bounds the recursion; with
`fuel ≥ queueFuel queue + 1` the `fuel = 0` case is never reached. -/
def processGo (backend : Nat → Except String String) :
    Nat → Nat → Nat → QueueState → List String → Nat × QueueState × List String
  | 0, _, count, st, log => (count, st, log)
  | fuel + 1, k, count, st, log =>
    match st.queue.getLast? with
    | none => (count, st, log)
    | some item =>
      let rest := st.queue.dropLast
      let log2 := log ++ [item.id]
      match backend k with
      | Except.ok ticket_id =>
        processGo backend fuel (k + 1) (count + 1)
          (okStep item ticket_id rest st) log2
      | Except.error e =>
        processGo backend fuel (k + 1) count
          (failStep item e rest st) log2

/-- `TicketQueue.process_queue` (`processOnce` of the spec): drain the list
until `rpop` returns nothing. -/
def process_queue (backend : Nat → Except String String) (st : QueueState) :
    Nat × QueueState × List String :=
  processGo backend (queueFuel st.queue + 1) 0 0 st []

/-- Response body of the `POST /tickets` handler. -/
structure TicketResponse where
  ticket_id : String
  status : String
  message : String
deriving Repr, DecidableEq

/-- The `POST /tickets` handler `create_ticket`: try the backend once; on
success answer `created` and publish the event; on any backend error queue
the request and answer `queued`.  (The outer handler `except` only fires
when the store itself fails, which the state-passing embedding has no
counterpart for.) -/
def create_ticket (ticket_data : String) (zoho : Except String String)
    (uuidHex8 : String) (st : QueueState) : TicketResponse × QueueState :=
  match zoho with
  | Except.ok ticket_id =>
    ({ ticket_id := ticket_id
       status := "created"
       message := "Ticket created successfully" },
     { st with events := st.events ++
        [{ channel := "tickets:created", ticket_id := ticket_id, queue_id := "" }] })
  | Except.error _ =>
    let (queue_id, st2) := add_ticket ticket_data uuidHex8 st
    ({ ticket_id := queue_id
       status := "queued"
       message := "Zoho is unavailable. Ticket queued for processing." },
     st2)

/-! ## Section 6: concrete instances used by counterexamples and witnesses -/

/-- Opinion: incident with confidence 0.9 (the spec's end-to-end scenario). -/
def sampleYesA : ClassOpinion :=
  { es_incidencia := some true, confianza := 9/10, categoria := some "technical",
    prioridad := some "alta", metadata := [("k", "v")] }

/-- Opinion: incident with confidence 0.8. -/
def sampleYesB : ClassOpinion :=
  { es_incidencia := some true, confianza := 8/10, categoria := some "billing",
    prioridad := some "baja", metadata := [] }

/-- Opinion: incident with confidence 0.505 (average times 1.1 has five
decimal places, exposing the rounding step). -/
def cxA : ClassOpinion :=
  { es_incidencia := some true, confianza := 505/1000, categoria := some "technical",
    prioridad := some "alta", metadata := [] }

/-- Opinion: incident with confidence 0.506. -/
def cxB : ClassOpinion :=
  { es_incidencia := some true, confianza := 506/1000, categoria := some "billing",
    prioridad := some "media", metadata := [] }

/-- Opinion: incident with confidence 0.999 (times 0.85 has five decimal
places, exposing the rounding step in the disagreement branch). -/
def disA : ClassOpinion :=
  { es_incidencia := some true, confianza := 999/1000, categoria := some "technical",
    prioridad := some "alta", metadata := [] }

/-- Opinion: non-incident with confidence 0.1. -/
def disB : ClassOpinion :=
  { es_incidencia := some false, confianza := 1/10, categoria := none,
    prioridad := none, metadata := [] }

/-- Opinion with the extreme valid confidence 0. -/
def boundOp0 : ClassOpinion :=
  { es_incidencia := some true, confianza := 0, categoria := none,
    prioridad := none, metadata := [] }

/-- Opinion with the extreme valid confidence 1. -/
def boundOp1 : ClassOpinion :=
  { es_incidencia := some true, confianza := 1, categoria := some "technical",
    prioridad := some "alta", metadata := [] }

/-- A store holding one active incident for context `g1`, ticket `99999`,
registered at epoch second 1000. -/
def store1 : IncidentStore := [{ ticket_id := "99999", group_id := "g1", timestamp := 1000 }]

/-- A message in context `g1` quoting a NON-bot participant whose quoted
text contains the valid ticket pattern `Ticket #12345`. -/
def msgNonBotQuote : MsgData :=
  { id := "m1", text := "sigue igual", from_user := some "u1", group_id := some "g1",
    quoted_message := some { text := "Ticket #12345", participant := "5215551234567@s.whatsapp.net" } }

/-- A plain message in context `g1` with no quoted message. -/
def msgPlain : MsgData :=
  { id := "m2", text := "el sistema sigue fallando", from_user := some "u2",
    group_id := some "g1", quoted_message := none }

/-- Store with one incident registered 1800 s before epoch second 10000. -/
def storeRecent : IncidentStore := [{ ticket_id := "11111", group_id := "g1", timestamp := 8200 }]

/-- Store with one incident registered 10800 s before epoch second 10000. -/
def storeOld : IncidentStore := [{ ticket_id := "22222", group_id := "g1", timestamp := -800 }]

/-- Store with one incident registered exactly 7200 s before epoch second
10000 (the TTL boundary). -/
def storeBoundary : IncidentStore := [{ ticket_id := "33333", group_id := "g1", timestamp := 2800 }]

/-- A fresh queue item (`attempts = 0`, `max_attempts = 10`). -/
def qItem0 : QueueItem :=
  { id := "q1", ticket_data := "payload", attempts := 0, max_attempts := 10,
    status := "queued", error := none }

/-- A queue item one failure away from permanent failure (`attempts = 9`). -/
def qItem9 : QueueItem :=
  { id := "q9", ticket_data := "payload", attempts := 9, max_attempts := 10,
    status := "queued", error := none }

/-- A backend that fails every call (Zoho down for the whole pass). -/
def alwaysFailBackend : Nat → Except String String := fun _ => Except.error "Zoho unavailable"

/-- Initial state: only the fresh item `q1` is queued. -/
def qSt0 : QueueState := { queue := [qItem0], statuses := [], events := [] }

/-! ## Shared helper lemmas -/

/-- Rounding to three decimals is monotone. -/
theorem round3_mono {x y : ℚ} (h : x ≤ y) : round3 x ≤ round3 y := by
  unfold round3
  have h1 : round (x * 1000) ≤ round (y * 1000) := by
    rw [round_eq, round_eq]
    exact Int.floor_mono (by linarith)
  have h2 : ((round (x * 1000) : ℤ) : ℚ) ≤ ((round (y * 1000) : ℤ) : ℚ) := by exact_mod_cast h1
  linarith

/-- Concrete evaluation rule for `round3`. -/
theorem round3_eq_div (x : ℚ) (n : ℤ) (h1 : (n : ℚ) ≤ x * 1000 + 1/2)
    (h2 : x * 1000 + 1/2 < (n : ℚ) + 1) : round3 x = (n : ℚ) / 1000 := by
  unfold round3
  rw [round_eq]
  have hf : ⌊x * 1000 + 1/2⌋ = n := Int.floor_eq_iff.mpr ⟨h1, h2⟩
  rw [hf]

/-- `round3` fixes 1. -/
theorem round3_one : round3 1 = 1 := by
  rw [round3_eq_div 1 1000 (by norm_num) (by norm_num)]
  norm_num

/-- `round3` fixes 0. -/
theorem round3_zero : round3 0 = 0 := by
  rw [round3_eq_div 0 0 (by norm_num) (by norm_num)]
  norm_num

/-- `round3` preserves nonnegativity. -/
theorem round3_nonneg {x : ℚ} (h : 0 ≤ x) : 0 ≤ round3 x := by
  have h2 := round3_mono h
  rwa [round3_zero] at h2

/-- `round3` preserves being at most one. -/
theorem round3_le_one {x : ℚ} (h : x ≤ 1) : round3 x ≤ 1 := by
  have h2 := round3_mono h
  rwa [round3_one] at h2

/-- Every `round3` value is an integer number of thousandths. -/
theorem round3_thousandths (x : ℚ) : ∃ n : ℤ, round3 x = (n : ℚ) / 1000 :=
  ⟨round (x * 1000), rfl⟩

/-- Dispatch lemma: two yes-opinions take the `ambos_si` branch. -/
theorem consensus_both_yes_eq (a b : ClassOpinion) (ha : a.es_incidencia = some true)
    (hb : b.es_incidencia = some true) : consensus a b = caso_ambos_si a b := by
  simp [consensus, ha, hb]

/-- Dispatch lemma: two defined opinions that disagree take the
`discrepancia` branch. -/
theorem consensus_disagreement_eq (a b : ClassOpinion) (x y : Bool)
    (ha : a.es_incidencia = some x) (hb : b.es_incidencia = some y) (hxy : x ≠ y) :
    consensus a b = caso_discrepancia a b := by
  cases x <;> cases y <;> simp_all [consensus]

/-- The head of the stable descending sort is a maximal-timestamp member. -/
theorem sortDesc_spec (l : List IncidentRec) (h : l ≠ []) :
    ∃ sel tail, sortDesc l = sel :: tail ∧ sel ∈ l ∧
      ∀ e ∈ l, e.timestamp ≤ sel.timestamp := by
  induction l with
  | nil => exact absurd rfl h
  | cons a l ih =>
    by_cases hl : l = []
    · subst hl
      exact ⟨a, [], rfl, by simp, by simp⟩
    · obtain ⟨sel, tail, hsort, hmem, hmax⟩ := ih hl
      have hcons : sortDesc (a :: l) = insertDesc a (sortDesc l) := rfl
      rw [hcons, hsort]
      by_cases hts : sel.timestamp ≤ a.timestamp
      · refine ⟨a, sel :: tail, by simp [insertDesc, hts], by simp, ?_⟩
        intro e he
        rcases List.mem_cons.mp he with he | he
        · subst he; exact le_refl _
        · exact le_trans (hmax e he) hts
      · refine ⟨sel, insertDesc a tail, by simp [insertDesc, hts], List.mem_cons_of_mem _ hmem, ?_⟩
        intro e he
        rcases List.mem_cons.mp he with he | he
        · subst he; exact le_of_not_le hts
        · exact hmax e he

/-! ## Claim C1 -/

/-- C1, counterexample: the claim states the consensus confidence of two
yes-opinions equals `min((a.confianza + b.confianza)/2 * 1.1, 1.0)` exactly,
but the source rounds the result to three decimals
(`round(confianza_final, 3)`): at confidences 0.505 and 0.506 the formula
gives 0.55605 while `consensus` returns 0.556. -/
theorem c1_counterexample :
    (consensus cxA cxB).confianza ≠
      min ((cxA.confianza + cxB.confianza) / 2 * (11/10)) 1 := by
  have hd : consensus cxA cxB = caso_ambos_si cxA cxB :=
    consensus_both_yes_eq cxA cxB rfl rfl
  have hmin : min ((cxA.confianza + cxB.confianza) / 2 * (11/10)) 1 = 11121/20000 := by
    rw [show (cxA.confianza + cxB.confianza) / 2 * (11/10) = 11121/20000 by
      simp only [cxA, cxB]; norm_num]
    exact min_eq_left (by norm_num)
  have hc : (consensus cxA cxB).confianza = round3 (11121/20000) := by
    rw [hd]
    simp only [caso_ambos_si]
    rw [show (cxA.confianza + cxB.confianza) / 2 * (11/10) = 11121/20000 by
      simp only [cxA, cxB]; norm_num]
    rw [min_eq_left (by norm_num : (11121/20000 : ℚ) ≤ 1)]
  rw [hc, hmin, round3_eq_div (11121/20000) 556 (by norm_num) (by norm_num)]
  norm_num

/-- C1, amended: for two non-null yes-opinions, `consensus` returns
`is_incident = true`, confidence `round3(min((a+b)/2 * 1.1, 1.0))` — the
claimed formula rounded to three decimals — takes category, priority and
metadata from the opinion with the higher confidence with ties favouring
the first opinion, sets `requires_review = false`, and the confidence is
monotone in both inputs and capped at 1.0. -/
theorem c1_both_yes_amended (a b : ClassOpinion) (ha : a.es_incidencia = some true)
    (hb : b.es_incidencia = some true) :
    (consensus a b).es_incidencia = some true ∧
    (consensus a b).confianza = round3 (min ((a.confianza + b.confianza) / 2 * (11/10)) 1) ∧
    (b.confianza ≤ a.confianza →
      (consensus a b).categoria = a.categoria ∧
      (consensus a b).prioridad = a.prioridad ∧
      (consensus a b).metadata = a.metadata) ∧
    (a.confianza < b.confianza →
      (consensus a b).categoria = b.categoria ∧
      (consensus a b).prioridad = b.prioridad ∧
      (consensus a b).metadata = b.metadata) ∧
    (consensus a b).consenso.requiere_revision = false ∧
    (consensus a b).confianza ≤ 1 ∧
    (∀ a2 b2 : ClassOpinion, a2.es_incidencia = some true → b2.es_incidencia = some true →
      a.confianza ≤ a2.confianza → b.confianza ≤ b2.confianza →
      (consensus a b).confianza ≤ (consensus a2 b2).confianza) := by
  rw [consensus_both_yes_eq a b ha hb]
  refine ⟨rfl, rfl, ?_, ?_, rfl, ?_, ?_⟩
  · intro h
    simp [caso_ambos_si, ge_iff_le, h]
  · intro h
    simp [caso_ambos_si, ge_iff_le, not_le.mpr h]
  · exact round3_le_one (min_le_right _ _)
  · intro a2 b2 ha2 hb2 h1 h2
    rw [consensus_both_yes_eq a2 b2 ha2 hb2]
    show round3 _ ≤ round3 _
    apply round3_mono
    apply min_le_min _ le_rfl
    nlinarith

/-- C1, witness: the amended theorem applied to the concrete opinions with
confidences 0.9 and 0.8 of the spec's end-to-end scenario. -/
theorem c1_witness :
    (consensus sampleYesA sampleYesB).es_incidencia = some true ∧
    (consensus sampleYesA sampleYesB).confianza =
      round3 (min ((sampleYesA.confianza + sampleYesB.confianza) / 2 * (11/10)) 1) ∧
    (consensus sampleYesA sampleYesB).categoria = sampleYesA.categoria ∧
    (consensus sampleYesA sampleYesB).consenso.requiere_revision = false ∧
    (consensus sampleYesA sampleYesB).confianza ≤ 1 := by
  have h := c1_both_yes_amended sampleYesA sampleYesB rfl rfl
  exact ⟨h.1, h.2.1, (h.2.2.1 (by norm_num [sampleYesA, sampleYesB])).1, h.2.2.2.2.1,
    h.2.2.2.2.2.1⟩

/-! ## Claim C8 -/

/-- C8, counterexample: the claim states the disagreement confidence equals
`primary.confidence * 0.85` exactly, but the source rounds to three decimals:
with primary confidence 0.999 the formula gives 0.84915 while `consensus`
returns 0.849. -/
theorem c8_counterexample :
    (consensus disA disB).confianza ≠ disA.confianza * (85/100) := by
  have hd := consensus_disagreement_eq disA disB true false rfl rfl (by decide)
  have hc : (consensus disA disB).confianza = round3 (999/1000 * (85/100)) := by
    rw [hd]
    simp only [caso_discrepancia, disA, disB]
    rw [if_pos (by norm_num : (999/1000 : ℚ) > 1/10)]
  rw [hc, show (999/1000 * (85/100) : ℚ) = 84915/100000 by norm_num,
    round3_eq_div (84915/100000) 849 (by norm_num) (by norm_num)]
  simp only [disA]
  norm_num

/-- C8, amended: for two non-null opinions that disagree, `consensus` picks
the opinion with the higher confidence as primary (ties favour the second
opinion), returns `round3(primary.confianza * 0.85)` — the claimed product
rounded to three decimals — copies the primary's fields, always sets
`requires_review = true`, and records which provider said what. -/
theorem c8_disagreement_amended (a b : ClassOpinion) (x y : Bool)
    (ha : a.es_incidencia = some x) (hb : b.es_incidencia = some y) (hxy : x ≠ y) :
    (consensus a b).consenso.requiere_revision = true ∧
    (consensus a b).confianza =
      round3 ((if a.confianza > b.confianza then a.confianza else b.confianza) * (85/100)) ∧
    (a.confianza > b.confianza →
      (consensus a b).es_incidencia = some x ∧
      (consensus a b).categoria = a.categoria ∧
      (consensus a b).prioridad = a.prioridad ∧
      (consensus a b).metadata = a.metadata ∧
      (consensus a b).consenso.modelo_primario = some "claude") ∧
    (¬(a.confianza > b.confianza) →
      (consensus a b).es_incidencia = some y ∧
      (consensus a b).categoria = b.categoria ∧
      (consensus a b).prioridad = b.prioridad ∧
      (consensus a b).metadata = b.metadata ∧
      (consensus a b).consenso.modelo_primario = some "openai") ∧
    (consensus a b).consenso.razon_discrepancia =
      some ("Claude dice " ++ pyBoolStr x ++ ", OpenAI dice " ++ pyBoolStr (!x)) := by
  rw [consensus_disagreement_eq a b x y ha hb hxy]
  refine ⟨rfl, ?_, ?_, ?_, ?_⟩
  · simp only [caso_discrepancia]
    split_ifs with h
    · rfl
    · rfl
  · intro h
    simp [caso_discrepancia, h, ha]
  · intro h
    simp [caso_discrepancia, h, hb]
  · simp [caso_discrepancia, ha]

/-- C8, witness: the amended theorem applied to a yes-opinion at confidence
0.999 against a no-opinion at confidence 0.1. -/
theorem c8_witness :
    (consensus disA disB).consenso.requiere_revision = true ∧
    (consensus disA disB).confianza =
      round3 ((if disA.confianza > disB.confianza then disA.confianza else disB.confianza) * (85/100)) ∧
    (consensus disA disB).es_incidencia = some true ∧
    (consensus disA disB).consenso.modelo_primario = some "claude" ∧
    (consensus disA disB).consenso.razon_discrepancia =
      some ("Claude dice " ++ pyBoolStr true ++ ", OpenAI dice " ++ pyBoolStr (!true)) := by
  have h := c8_disagreement_amended disA disB true false rfl rfl (by decide)
  have h3 := h.2.2.1 (by norm_num [disA, disB] : disA.confianza > disB.confianza)
  exact ⟨h.1, h.2.1, h3.1, h3.2.2.2.2, h.2.2.2.2⟩

/-! ## Claim C10 -/

/-- C10: for input confidences in `[0,1]`, the consensus confidence lies in
`[0,1]` in every branch (`ambos_si`, `ambos_no`, `discrepancia`,
`error_parcial`, `error_ambos`), and it is always an integer number of
thousandths (rounded to at most three decimal places). -/
theorem c10_confidence_bounds (a b : ClassOpinion)
    (ha0 : 0 ≤ a.confianza) (ha1 : a.confianza ≤ 1)
    (hb0 : 0 ≤ b.confianza) (hb1 : b.confianza ≤ 1) :
    0 ≤ (consensus a b).confianza ∧ (consensus a b).confianza ≤ 1 ∧
    ∃ n : ℤ, (consensus a b).confianza = (n : ℚ) / 1000 := by
  unfold consensus
  dsimp only
  split_ifs with h1 h2 h3
  · simp only [caso_ambos_si]
    refine ⟨round3_nonneg (le_min (by linarith) zero_le_one),
      round3_le_one (min_le_right _ _), round3_thousandths _⟩
  · simp only [caso_ambos_no]
    exact ⟨round3_nonneg (le_trans ha0 (le_max_left _ _)),
      round3_le_one (max_le ha1 hb1), round3_thousandths _⟩
  · simp only [caso_discrepancia]
    split_ifs with h4
    · exact ⟨round3_nonneg (by nlinarith), round3_le_one (by nlinarith), round3_thousandths _⟩
    · exact ⟨round3_nonneg (by nlinarith), round3_le_one (by nlinarith), round3_thousandths _⟩
  · simp only [caso_error]
    split_ifs
    all_goals
      first
      | exact ⟨round3_nonneg (by nlinarith), round3_le_one (by nlinarith), round3_thousandths _⟩
      | exact ⟨le_refl 0, by norm_num, 0, by norm_num⟩

/-- C10, witness: the bounds theorem applied at the extreme valid
confidences 0 and 1. -/
theorem c10_witness :
    0 ≤ (consensus boundOp0 boundOp1).confianza ∧
    (consensus boundOp0 boundOp1).confianza ≤ 1 ∧
    ∃ n : ℤ, (consensus boundOp0 boundOp1).confianza = (n : ℚ) / 1000 :=
  c10_confidence_bounds boundOp0 boundOp1 le_rfl zero_le_one zero_le_one le_rfl

/-! ## Claim C5 -/

/-- C5: when both the primary and the fallback provider fail,
`classify_message` still returns a result — the conservative default with
`is_support_incident = true`, confidence 0.1 and category
`general_inquiry`; no provider error reaches the caller (the embedding is a
total function). -/
theorem c5_conservative_default (primary fallback : Option AIClassification)
    (hp : primary = none) (hf : fallback = none) :
    classify_message primary fallback = default_classification ∧
    (classify_message primary fallback).is_support_incident = true ∧
    (classify_message primary fallback).confidence = 1/10 ∧
    (classify_message primary fallback).category = "general_inquiry" := by
  subst hp
  subst hf
  exact ⟨rfl, rfl, rfl, rfl⟩

/-- C5, witness: the default theorem applied at two failed providers. -/
theorem c5_witness :
    classify_message none none = default_classification ∧
    (classify_message none none).is_support_incident = true ∧
    (classify_message none none).confidence = 1/10 ∧
    (classify_message none none).category = "general_inquiry" :=
  c5_conservative_default none none rfl rfl

/-! ## Claim C9 -/

/-- C9: the keyword fallback is a pure function of the text: it marks an
incident exactly when some urgent/problem keyword occurs in the lowered
text, its confidence is `min(0.2 * trigger_count, 0.8)` for incidents and
0.3 otherwise, where `trigger_count` counts the distinct matched keywords
of the fixed keyword sets, and the matched keywords are emitted as
evidence. -/
theorem c9_keyword_fallback (text : String) :
    (fallback_classification text).is_support_incident =
      incident_indicators.any (fun keyword => strContains (pyLower text) keyword) ∧
    (fallback_classification text).confidence =
      (if (fallback_classification text).is_support_incident
        then min ((1/5 : ℚ) * (extract_trigger_words text).length) (4/5) else 3/10) ∧
    (fallback_classification text).trigger_words = extract_trigger_words text ∧
    (fallback_classification text).trigger_words_count = (extract_trigger_words text).length := by
  refine ⟨rfl, ?_, rfl, rfl⟩
  show (if incident_indicators.any (fun keyword => strContains (pyLower text) keyword)
      then min (4/5 : ℚ) ((extract_trigger_words text).length * (1/5)) else 3/10) = _
  rw [min_comm, mul_comm]
  rfl

/-! ## Claim C3 -/

/-- C3, counterexample: the claim states `checkExisting` on a quoted message
from a non-system sender always returns none, but the source falls through
to the time-windowed context search: with an active incident `99999` in the
message's context, a message quoting a NON-bot participant whose quoted
text contains the valid pattern `Ticket #12345` still resolves to
`99999`. -/
theorem c3_counterexample :
    check_existing_incident store1 msgNonBotQuote 2000 = some "99999" ∧
    check_existing_incident store1 msgNonBotQuote 2000 ≠ none := by
  constructor
  · decide
  · decide

/-- C3, amended: for a quoted message whose quoted participant does not
contain the bot number, the quoted-reply extraction itself never matches —
even if the quoted text contains a valid ticket pattern — and
`check_existing_incident` degenerates to the time-windowed search (so it
returns none exactly when that search finds nothing). -/
theorem c3_quoted_non_bot (store : IncidentStore) (msg : MsgData) (now : ℤ)
    (q : QuotedMsg) (hq : msg.quoted_message = some q)
    (hnb : strContains q.participant bot_number = false) :
    extract_ticket_from_quoted store msg = none ∧
    check_existing_incident store msg now = find_recent_incident store msg now := by
  have he : extract_ticket_from_quoted store msg = none := by
    unfold extract_ticket_from_quoted
    rw [hq]
    simp [hnb]
  refine ⟨he, ?_⟩
  unfold check_existing_incident
  rw [hq, he]

/-- C3, witness: the amended theorem applied to the message quoting a
non-bot participant with a valid ticket pattern in the quoted text. -/
theorem c3_witness :
    extract_ticket_from_quoted store1 msgNonBotQuote = none ∧
    check_existing_incident store1 msgNonBotQuote 2000 =
      find_recent_incident store1 msgNonBotQuote 2000 :=
  c3_quoted_non_bot store1 msgNonBotQuote 2000
    { text := "Ticket #12345", participant := "5215551234567@s.whatsapp.net" }
    rfl (by decide)

/-! ## Claim C4 -/

/-- C4: among the active incidents stored for the message's context key,
the time-windowed search selects one with the most recent timestamp and
returns its ticket id exactly when `now - timestamp` is strictly below the
TTL window of 7200 s; concretely, an incident registered 1800 s ago is
found, and one registered 10800 s ago, or exactly 7200 s ago (the
boundary), is not. -/
theorem c4_time_window :
    (∀ (store : IncidentStore) (msg : MsgData) (now : ℤ) (g : String),
      pyOrStr msg.group_id msg.from_user = some g →
      g.isEmpty = false →
      store.filter (fun e => e.group_id == g) ≠ [] →
      ∃ sel, sel ∈ store.filter (fun e => e.group_id == g) ∧
        (∀ e ∈ store.filter (fun e => e.group_id == g), e.timestamp ≤ sel.timestamp) ∧
        find_recent_incident store msg now =
          (if now - sel.timestamp < INCIDENT_TTL then some sel.ticket_id else none)) ∧
    find_recent_incident storeRecent msgPlain 10000 = some "11111" ∧
    find_recent_incident storeOld msgPlain 10000 = none ∧
    find_recent_incident storeBoundary msgPlain 10000 = none := by
  refine ⟨?_, by decide, by decide, by decide⟩
  intro store msg now g hg hge hne
  obtain ⟨sel, tail, hsort, hmem, hmax⟩ :=
    sortDesc_spec (store.filter (fun e => e.group_id == g)) hne
  refine ⟨sel, hmem, hmax, ?_⟩
  unfold find_recent_incident
  rw [hg]
  simp only [hge, Bool.false_eq_true, if_false]
  rw [hsort]
  rfl

/-- C4, witness: the general part applied to the store holding one incident
registered 1800 s before the query time. -/
theorem c4_witness :
    ∃ sel, sel ∈ storeRecent.filter (fun e => e.group_id == "g1") ∧
      (∀ e ∈ storeRecent.filter (fun e => e.group_id == "g1"), e.timestamp ≤ sel.timestamp) ∧
      find_recent_incident storeRecent msgPlain 10000 =
        (if 10000 - sel.timestamp < INCIDENT_TTL then some sel.ticket_id else none) :=
  c4_time_window.1 storeRecent msgPlain 10000 "g1" rfl rfl (by decide)

/-! ## Claim C2 -/

/-- C2: when the backend attempt for a popped queue item fails, the attempts
counter is incremented and the error recorded; while the incremented count
is still below `max_attempts` the item is pushed back onto the queue and its
status becomes `retrying`, otherwise the status becomes `failed` and the
item is not requeued.  The second conjunct ties the failure step to the
`process_queue` loop: a failing pop rewrites the state exactly through
`failStep`. -/
theorem c2_failure_step :
    (∀ (item : QueueItem) (e : String) (rest : List QueueItem) (st : QueueState),
      (item.attempts + 1 < item.max_attempts →
        (failStep item e rest st).queue =
          ({ item with attempts := item.attempts + 1, error := some e } : QueueItem) :: rest ∧
        getStatus (failStep item e rest st).statuses item.id =
          some { status := "retrying", attempts := some (item.attempts + 1),
                 ticket_id := none, error := some e }) ∧
      (item.max_attempts ≤ item.attempts + 1 →
        (failStep item e rest st).queue = rest ∧
        getStatus (failStep item e rest st).statuses item.id =
          some { status := "failed", attempts := some (item.attempts + 1),
                 ticket_id := none, error := some e })) ∧
    (∀ (backend : Nat → Except String String) (fuel k count : Nat) (st : QueueState)
      (log : List String) (item : QueueItem) (e : String),
      st.queue.getLast? = some item → backend k = Except.error e →
      processGo backend (fuel + 1) k count st log =
        processGo backend fuel (k + 1) count (failStep item e st.queue.dropLast st)
          (log ++ [item.id])) := by
  constructor
  · intro item e rest st
    constructor
    · intro h
      unfold failStep
      rw [if_pos h]
      exact ⟨rfl, by simp [getStatus, setStatus]⟩
    · intro h
      unfold failStep
      rw [if_neg (by dsimp only; omega)]
      exact ⟨rfl, by simp [getStatus, setStatus]⟩
  · intro backend fuel k count st log item e hlast hbackend
    simp only [processGo, hlast, hbackend]

/-- C2, witness: the failure step applied to a fresh item (`attempts = 0`,
requeued with `attempts = 1` and status `retrying`) and to an item with
`attempts = 9`, `max_attempts = 10` (status `failed`, not requeued). -/
theorem c2_witness :
    (failStep qItem0 "Zoho unavailable" [] qSt0).queue =
      ({ qItem0 with attempts := qItem0.attempts + 1, error := some "Zoho unavailable" } : QueueItem) :: [] ∧
    getStatus (failStep qItem0 "Zoho unavailable" [] qSt0).statuses qItem0.id =
      some { status := "retrying", attempts := some (qItem0.attempts + 1),
             ticket_id := none, error := some "Zoho unavailable" } ∧
    (failStep qItem9 "Zoho unavailable" [] qSt0).queue = [] ∧
    getStatus (failStep qItem9 "Zoho unavailable" [] qSt0).statuses qItem9.id =
      some { status := "failed", attempts := some (qItem9.attempts + 1),
             ticket_id := none, error := some "Zoho unavailable" } := by
  have h0 := (c2_failure_step.1 qItem0 "Zoho unavailable" [] qSt0).1 (by decide)
  have h9 := (c2_failure_step.1 qItem9 "Zoho unavailable" [] qSt0).2 (by decide)
  exact ⟨h0.1, h0.2, h9.1, h9.2⟩

/-! ## Claim C7 -/

/-- C7, counterexample: the claim states each queue item is attempted
against the backend at most once per `process_queue` invocation, but the
loop drains until `rpop` finds the list empty, so an item that fails and is
pushed back is re-popped in the same invocation: with one fresh item (id
`q1`) and a backend that always fails, the single invocation logs ten
attempts of `q1`. -/
theorem c7_counterexample :
    1 < ((process_queue alwaysFailBackend qSt0).2.2.count "q1") := by decide

/-- C7, amended: within a single `process_queue` invocation an item that
fails and is requeued IS re-popped: the loop runs until the queue is empty,
so the fresh item `q1` under a persistently failing backend is attempted
exactly `max_attempts = 10` times in one invocation, ends with status
`failed`, leaves the queue empty, and counts as zero processed items. -/
theorem c7_drains_until_empty :
    (process_queue alwaysFailBackend qSt0).2.2 = List.replicate 10 "q1" ∧
    (process_queue alwaysFailBackend qSt0).2.1.queue = [] ∧
    get_ticket_status (process_queue alwaysFailBackend qSt0).2.1 "q1" =
      { status := "failed", attempts := some 10, ticket_id := none,
        error := some "Zoho unavailable" } ∧
    (process_queue alwaysFailBackend qSt0).1 = 0 := by
  refine ⟨by decide, by decide, by decide, by decide⟩

/-! ## Claim C6 -/

/-- C6: every ticket creation request is answered with either the
backend-created ticket id under status `created`, or — when the backend
call fails — a queue id carrying the distinguished `queue_` name space
under status `queued`; the response never carries a bare failure and is
independent of the backend error text. -/
theorem c6_created_or_queued (ticket_data : String) (zoho : Except String String)
    (uuidHex8 : String) (st : QueueState) :
    ((create_ticket ticket_data zoho uuidHex8 st).1.status = "created" ∨
     (create_ticket ticket_data zoho uuidHex8 st).1.status = "queued") ∧
    (∀ tid, zoho = Except.ok tid →
      (create_ticket ticket_data zoho uuidHex8 st).1.status = "created" ∧
      (create_ticket ticket_data zoho uuidHex8 st).1.ticket_id = tid) ∧
    (∀ e, zoho = Except.error e →
      (create_ticket ticket_data zoho uuidHex8 st).1.status = "queued" ∧
      (create_ticket ticket_data zoho uuidHex8 st).1.ticket_id = "queue_" ++ uuidHex8 ∧
      (∃ suffix, (create_ticket ticket_data zoho uuidHex8 st).1.ticket_id =
        "queue_" ++ suffix) ∧
      getStatus (create_ticket ticket_data zoho uuidHex8 st).2.statuses
          ("queue_" ++ uuidHex8) =
        some { status := "queued", attempts := none, ticket_id := none, error := none }) ∧
    (∀ e1 e2 : String,
      (create_ticket ticket_data (Except.error e1) uuidHex8 st).1 =
        (create_ticket ticket_data (Except.error e2) uuidHex8 st).1) := by
  refine ⟨?_, ?_, ?_, fun e1 e2 => rfl⟩
  · cases zoho with
    | ok tid => exact Or.inl rfl
    | error e => exact Or.inr rfl
  · intro tid h
    subst h
    exact ⟨rfl, rfl⟩
  · intro e h
    subst h
    exact ⟨rfl, rfl, ⟨uuidHex8, rfl⟩, by simp [create_ticket, add_ticket, getStatus, setStatus]⟩

/-- C6, witness: the endpoint theorem applied with the backend down (error
`down`) and with the backend returning ticket `123456`. -/
theorem c6_witness :
    ((create_ticket "payload" (Except.error "down") "abcd1234" qSt0).1.status = "queued" ∧
      (create_ticket "payload" (Except.error "down") "abcd1234" qSt0).1.ticket_id =
        "queue_" ++ "abcd1234" ∧
      (∃ suffix, (create_ticket "payload" (Except.error "down") "abcd1234" qSt0).1.ticket_id =
        "queue_" ++ suffix) ∧
      getStatus (create_ticket "payload" (Except.error "down") "abcd1234" qSt0).2.statuses
          ("queue_" ++ "abcd1234") =
        some { status := "queued", attempts := none, ticket_id := none, error := none }) ∧
    (create_ticket "payload" (Except.ok "123456") "abcd1234" qSt0).1.status = "created" ∧
    (create_ticket "payload" (Except.ok "123456") "abcd1234" qSt0).1.ticket_id = "123456" := by
  have hq := (c6_created_or_queued "payload" (Except.error "down") "abcd1234" qSt0).2.2.1
    "down" rfl
  have ho := (c6_created_or_queued "payload" (Except.ok "123456") "abcd1234" qSt0).2.1
    "123456" rfl
  exact ⟨hq, ho.1, ho.2⟩
